import Mathlib

/-!
# Verification of the cmem-plugin-databus transfer pipeline

Shallow embedding of the parts of `cmem_plugin_databus` (loader, publisher,
utils) that the specification talks about, together with proofs about them.

Conventions of the embedding:
* Python byte strings are `List Nat`; Python strings are `String`.
* HTTP interaction is modelled by an explicit environment (an oracle mapping
  request URLs to responses); every function that performs I/O returns the
  trace of calls it issued in order, together with its result.
* Python exceptions are modelled with `Except`; `try/except` becomes a match
  on the `Except` value.
* Machine integers do not overflow in the source (statuses, counters, byte
  counts), so `Nat` is used throughout.
-/

/-! ## Clock / progress formatter

`get_clock` from `src/cmem_plugin_databus/utils.py` lines 37-51 (the copy in
`cmem_utils.py` lines 36-50 is textually identical, so both map to the one
definition below):

```python
def get_clock(counter: int) -> str:
    clock = {0: "🕛", 1: "🕐", 2: "🕑", 3: "🕓", 4: "🕔",
             5: "🕕", 6: "🕖", 7: "🕗", 8: "🕘", 9: "🕚"}
    return clock[int(repr(counter)[-1])]
```

`repr(counter)` for a non-negative `counter` is its decimal representation,
embedded as `Nat.toDigits 10 counter`; `[-1]` takes its last character
(`List.getLast?`; the list is never empty); `int(...)` converts the digit
character back to its value; the dict lookup is a partial map `Nat → Option
String` (a missing key would be a `KeyError`).
-/

def clockDict : Nat → Option String
  | 0 => some "🕛"
  | 1 => some "🕐"
  | 2 => some "🕑"
  | 3 => some "🕓"
  | 4 => some "🕔"
  | 5 => some "🕕"
  | 6 => some "🕖"
  | 7 => some "🕗"
  | 8 => some "🕘"
  | 9 => some "🕚"
  | _ => none

/-- Python `int(c)` for a decimal digit character `c`. -/
def pyDigitToInt (c : Char) : Nat := c.toNat - 48

/-- Python `repr(n)[-1]` for a non-negative integer `n`. -/
def pyReprLastChar (n : Nat) : Option Char := (Nat.toDigits 10 n).getLast?

/-- Embedding of `get_clock` (utils.py:37-51, cmem_utils.py:36-50). -/
def get_clock (counter : Nat) : Option String :=
  (pyReprLastChar counter).bind (fun c => clockDict (pyDigitToInt c))

/-- Total variant used when interpolating into an f-string; `get_clock` is
proved to never be `none`, so the default is dead code. -/
def get_clock_s (counter : Nat) : String := (get_clock counter).getD ""

/-! ## Chunk iterator

`byte_iterator_context_update` from `src/cmem_plugin_databus/utils.py`
lines 352-367:

```python
def byte_iterator_context_update(data, context, chunksize, desc):
    for i, chunk in enumerate(
        [data[i : i + chunksize] for i in range(0, len(data), chunksize)]
    ):
        op_desc = f"{desc} {get_clock(i)}"
        context.report.update(
            ExecutionReport(
                entity_count=(i * chunksize) // 1000000,
                operation="wait",
                operation_desc=op_desc,
            )
        )
        yield chunk
```

The generator is embedded as the finite trace of events it produces: a
`report` event for each `context.report.update` call (the progress sink) and
a `chunk` event for each `yield`, in program order.  `enumerate` over the
list comprehension becomes a recursion carrying the index `i`.
-/

/-- Helper for `pyRange`: structural recursion on a fuel bound so the
definition reduces in the kernel.  The fuel `stop - start` always suffices
for a positive step. -/
def pyRangeAux (step : Nat) : Nat → Nat → Nat → List Nat
  | 0, _, _ => []
  | fuel + 1, start, stop =>
      if start < stop then start :: pyRangeAux step fuel (start + step) stop
      else []

/-- Python `range(start, stop, step)` for `step > 0` (the guard on `step = 0` keeps
the definition total; Python raises `ValueError` there and the source always
calls it with a positive step). -/
def pyRange (start stop step : Nat) : List Nat :=
  if step = 0 then [] else pyRangeAux step (stop - start) start stop

/-- Python `data[i : i + c]` for a list. -/
def pySlice (data : List α) (i c : Nat) : List α := (data.drop i).take c

/-- Python `[data[i : i + c] for i in range(0, len(data), c)]`. -/
def chunksOfData (data : List α) (c : Nat) : List (List α) :=
  (pyRange 0 data.length c).map (fun i => pySlice data i c)

/-- The fields of `ExecutionReport` the plugin constructs (all optional in
the platform API; unset fields are `none`). -/
structure ExecutionReport where
  entity_count : Option Nat := none
  operation : Option String := none
  operation_desc : Option String := none
  error : Option String := none
deriving DecidableEq, Repr

/-- One observable event of the generator: a progress-sink invocation or a
yielded chunk. -/
inductive GenEvent where
  | report (r : ExecutionReport)
  | chunk (bs : List Nat)
deriving DecidableEq, Repr

/-- The `ExecutionReport` built in the loop body for chunk index `i`. -/
def chunkReport (c : Nat) (desc : String) (i : Nat) : ExecutionReport :=
  { entity_count := some ((i * c) / 1000000)
    operation := some "wait"
    operation_desc := some (desc ++ " " ++ get_clock_s i) }

/-- The loop body of the generator over the chunk list, carrying the
`enumerate` index. -/
def emitChunks (c : Nat) (desc : String) : Nat → List (List Nat) → List GenEvent
  | _, [] => []
  | i, ch :: rest =>
      .report (chunkReport c desc i) :: .chunk ch :: emitChunks c desc (i + 1) rest

/-- Embedding of `byte_iterator_context_update` (utils.py:352-367), as its event trace. -/
def byte_iterator_context_update (data : List Nat) (c : Nat) (desc : String) :
    List GenEvent :=
  emitChunks c desc 0 (chunksOfData data c)

/-- The chunks yielded by a trace, in order. -/
def yieldedChunks (tr : List GenEvent) : List (List Nat) :=
  tr.filterMap (fun e => match e with | .chunk bs => some bs | _ => none)

/-- The progress-sink invocations of a trace, in order. -/
def reportsOf (tr : List GenEvent) : List ExecutionReport :=
  tr.filterMap (fun e => match e with | .report r => some r | _ => none)

/-- Strict alternation report-then-chunk; a trace equal to
`alternateRC rs cs` invokes the sink exactly once before each chunk. -/
def alternateRC : List ExecutionReport → List (List Nat) → List GenEvent
  | r :: rs, ch :: cs => .report r :: .chunk ch :: alternateRC rs cs
  | _, _ => []

/-! ## WebDAV handler

`WebDAVHandler` from `src/cmem_plugin_databus/utils.py` lines 251-331 and
`WebDAVException` from lines 17-24:

```python
class WebDAVException(Exception):
    def __init__(self, resp):
        super().__init__(
            f"Exception during WebDAV Request {resp.request.method} to "
            f"{resp.request.url}: Status {resp.status_code}\nResponse: {resp.text}"
        )

class WebDAVHandler:
    def __init__(self, databus_base, user, api_key):
        self.dav_base = databus_base + f"dav/{user}/"
        self.api_key = api_key

    def check_existence(self, path):
        try:
            resp = requests.head(url=f"{self.dav_base}{path}", timeout=4)
        except requests.RequestException:
            return False
        return bool(resp.status_code == 405)

    def create_dir(self, path, session=None):
        req = requests.Request(method="MKCOL", url=f"{self.dav_base}{path}",
                               headers={"X-API-KEY": f"{self.api_key}"})
        resp = session.send(req.prepare())
        return resp

    def create_dirs(self, path):
        dirs = path.split("/")
        responses = []
        current_path = ""
        for directory in dirs:
            current_path = current_path + directory + "/"
            if not self.check_existence(current_path):
                resp = self.create_dir(current_path)
                responses.append(resp)
                if resp.status_code not in [200, 201, 405]:
                    raise WebDAVException(resp)
        return responses

    def upload_file_with_context(self, path, data, context, chunk_size,
                                 create_parent_dirs=False):
        context_data_generator = byte_iterator_context_update(
            data, context, desc="Uploading File", chunksize=chunk_size)
        if create_parent_dirs:
            dirpath = path.rsplit("/", 1)[0]
            responses = self.create_dirs(dirpath)
            if responses and responses[-1].status_code not in [200, 201, 405]:
                raise WebDAVException(responses[-1])
        resp = requests.put(url=f"{self.dav_base}{path}", headers=...,
                            data=context_data_generator, stream=True,
                            timeout=3000)
        return resp
```

The HTTP layer is an oracle `DavEnv` mapping URLs to responses; each method
returns the ordered list of HTTP calls it issued together with its result
(`Except WebDAVError …` models raising `WebDAVException`).
-/

instance exceptDecEq {ε α : Type} [DecidableEq ε] [DecidableEq α] :
    DecidableEq (Except ε α)
  | .ok a, .ok b =>
      if h : a = b then .isTrue (by rw [h])
      else .isFalse (by intro hc; cases hc; exact h rfl)
  | .ok _, .error _ => .isFalse (by intro hc; cases hc)
  | .error _, .ok _ => .isFalse (by intro hc; cases hc)
  | .error e, .error f =>
      if h : e = f then .isTrue (by rw [h])
      else .isFalse (by intro hc; cases hc; exact h rfl)

/-- Split a character list at every occurrence of `sep` (Python
`str.split(sep)` for a one-character separator; structurally recursive so
that it reduces in the kernel, unlike `String.splitOn`). -/
def splitChar (sep : Char) : List Char → List (List Char)
  | [] => [[]]
  | c :: rest =>
      let r := splitChar sep rest
      if c = sep then [] :: r
      else
        match r with
        | [] => [[c]]
        | hd :: tl => (c :: hd) :: tl

/-- Python `s.split(sep)` for a one-character separator `sep`. -/
def pySplit (s : String) (sep : Char) : List String :=
  (splitChar sep s.data).map (fun cs => String.mk cs)

/-- Python `sep.join(parts)`. -/
def pyJoin (sep : String) : List String → String
  | [] => ""
  | [x] => x
  | x :: rest => x ++ sep ++ pyJoin sep rest

/-- A response together with the request that produced it (mirroring
`requests.Response.request`, which `WebDAVException` reads). -/
structure ResponseRec where
  method : String
  url : String
  status : Nat
  body : String
deriving DecidableEq, Repr

/-- Status and body delivered by the network for a request. -/
structure HttpResponse where
  status : Nat
  body : String
deriving DecidableEq, Repr

/-- The data carried by a raised `WebDAVException` (utils.py:17-24): HTTP
method, URL, status code and response body of the offending response. -/
structure WebDAVError where
  method : String
  url : String
  status : Nat
  body : String
deriving DecidableEq, Repr

def WebDAVError.ofResponse (r : ResponseRec) : WebDAVError :=
  ⟨r.method, r.url, r.status, r.body⟩

/-- The exception message format string of `WebDAVException.__init__`. -/
def WebDAVError.message (e : WebDAVError) : String :=
  "Exception during WebDAV Request " ++ e.method ++ " to " ++ e.url
    ++ ": Status " ++ toString e.status ++ "\nResponse: " ++ e.body

/-- Network oracle: what each HEAD probe and each MKCOL / PUT request
returns.  `headStatus = none` models a `requests.RequestException`. -/
structure DavEnv where
  headStatus : String → Option Nat
  mkcolResponse : String → HttpResponse
  putResponse : String → HttpResponse

/-- The state set up by `WebDAVHandler.__init__`. -/
structure WebDAVHandler where
  dav_base : String
  api_key : String
deriving DecidableEq, Repr

/-- One HTTP call issued by the handler, in trace order. -/
inductive DavCall where
  | head (url : String)
  | mkcol (url : String)
  | put (url : String)
deriving DecidableEq, Repr

/-- Embedding of `WebDAVHandler.check_existence` (utils.py:258-265): issues a HEAD and
reports existence iff the status is 405. -/
def check_existence (env : DavEnv) (h : WebDAVHandler) (path : String) : Bool :=
  match env.headStatus (h.dav_base ++ path) with
  | none => false
  | some s => s == 405

/-- Embedding of `WebDAVHandler.create_dir` (utils.py:267-281): one MKCOL request. -/
def create_dir (env : DavEnv) (h : WebDAVHandler) (path : String) :
    ResponseRec :=
  let url := h.dav_base ++ path
  let r := env.mkcolResponse url
  ⟨"MKCOL", url, r.status, r.body⟩

/-- The loop of `WebDAVHandler.create_dirs` (utils.py:283-297) over the
remaining directory segments, carrying `current_path`. -/
def create_dirs_loop (env : DavEnv) (h : WebDAVHandler) :
    List String → String → List DavCall × Except WebDAVError (List ResponseRec)
  | [], _ => ([], .ok [])
  | directory :: rest, current_path =>
      let cp := current_path ++ directory ++ "/"
      let url := h.dav_base ++ cp
      if check_existence env h cp then
        let next := create_dirs_loop env h rest cp
        (.head url :: next.1, next.2)
      else
        let resp := create_dir env h cp
        if resp.status = 200 ∨ resp.status = 201 ∨ resp.status = 405 then
          let next := create_dirs_loop env h rest cp
          (.head url :: .mkcol url :: next.1,
            match next.2 with
            | .ok rs => .ok (resp :: rs)
            | .error e => .error e)
        else
          ([.head url, .mkcol url], .error (WebDAVError.ofResponse resp))

/-- Embedding of `WebDAVHandler.create_dirs` (utils.py:283-297). -/
def create_dirs (env : DavEnv) (h : WebDAVHandler) (path : String) :
    List DavCall × Except WebDAVError (List ResponseRec) :=
  create_dirs_loop env h (pySplit path '/') ""

/-- The accumulated `current_path` prefixes the loop visits. -/
def accPrefixes (current : String) : List String → List String
  | [] => []
  | directory :: rest =>
      (current ++ directory ++ "/")
        :: accPrefixes (current ++ directory ++ "/") rest

/-- The URLs of the MKCOL calls of a trace, in order. -/
def mkcolUrls (tr : List DavCall) : List String :=
  tr.filterMap (fun e => match e with | .mkcol u => some u | _ => none)

/-- Python `path.rsplit("/", 1)[0]`: everything before the last slash (the whole
string when there is no slash). -/
def rsplit1_head (s : String) : String :=
  let parts := pySplit s '/'
  if parts.length ≤ 1 then s else pyJoin "/" parts.dropLast

/-- The re-check of `responses[-1]` in `upload_file_with_context`
(utils.py:317-320): an error only when the list is non-empty and its last
status is outside {200, 201, 405}. -/
def lastCheckError (responses : List ResponseRec) : Option WebDAVError :=
  match responses.getLast? with
  | none => none
  | some r =>
      if r.status = 200 ∨ r.status = 201 ∨ r.status = 405 then none
      else some (WebDAVError.ofResponse r)

/-- Embedding of `WebDAVHandler.upload_file_with_context` (utils.py:299-331).  The chunk
generator is created first but is lazy: it transfers no bytes until the PUT
request consumes it, so creating it adds no event to the trace. -/
def upload_file_with_context (env : DavEnv) (h : WebDAVHandler) (path : String)
    (data : List Nat) (chunk_size : Nat) (create_parent_dirs : Bool) :
    List DavCall × Except WebDAVError ResponseRec :=
  let putUrl := h.dav_base ++ path
  let doPut : List DavCall × Except WebDAVError ResponseRec :=
    ([.put putUrl],
      .ok ⟨"PUT", putUrl, (env.putResponse putUrl).status,
        (env.putResponse putUrl).body⟩)
  if create_parent_dirs then
    let dirpath := rsplit1_head path
    let dirsRun := create_dirs env h dirpath
    match dirsRun.2 with
    | .error e => (dirsRun.1, .error e)
    | .ok responses =>
        match lastCheckError responses with
        | some e => (dirsRun.1, .error e)
        | none => (dirsRun.1 ++ doPut.1, doPut.2)
  else doPut

/-- A demo handler (`WebDAVHandler("https://databus.example.org/", "user1",
"secret")` would set `dav_base` to this value). -/
def hDemo : WebDAVHandler := ⟨"https://databus.example.org/dav/user1/", "secret"⟩

/-- Every existence probe answers 405 ("exists"); MKCOL would answer 500 if
it were ever called. -/
def envAllExist : DavEnv :=
  ⟨fun _ => some 405, fun _ => ⟨500, "never sent"⟩, fun _ => ⟨201, "Created"⟩⟩

/-- Only directory `a` pre-exists; every MKCOL succeeds with 201. -/
def envOnlyA : DavEnv :=
  ⟨fun u => if u = "https://databus.example.org/dav/user1/a/" then some 405
            else some 404,
   fun _ => ⟨201, "Created"⟩, fun _ => ⟨201, "Created"⟩⟩

/-- No directory exists and every MKCOL is rejected with 403 Forbidden. -/
def env403 : DavEnv :=
  ⟨fun _ => some 404, fun _ => ⟨403, "Forbidden"⟩, fun _ => ⟨201, "Created"⟩⟩

/-! ## Loader plugin

`SimpleDatabusLoadingPlugin.execute` from `src/cmem_plugin_databus/loader.py`
lines 305-346:

```python
def execute(self, inputs=(), context=ExecutionContext()):
    setup_cmempy_user_access(context.user)
    self.log.info(f"Downloading file from {self.databus_file_id}")
    databus_file_resp = requests.get(self.databus_file_id,
                                     allow_redirects=True, stream=True,
                                     timeout=3000)
    if databus_file_resp.status_code > 400:
        context.report.update(ExecutionReport(
            operation_desc="Download Failed ❌", error=databus_file_resp.text))
        return
    upload_response = create_resource(
        project_name=context.task.project_id(),
        resource_name=self.target_file,
        file_resource=ResponseStream(databus_file_resp), replace=True)
    if upload_response.status_code < 400:
        context.report.update(ExecutionReport(
            operation_desc="Download Successful ✓", entity_count=1))
    else:
        context.report.update(ExecutionReport(
            operation_desc="Download Failed ❌", error=upload_response.text))
```

The two external calls are an oracle; `execute` returns the ordered trace of
calls it made together with the final `ExecutionReport`.  Note the strict
comparison `status_code > 400` on the download response.
-/

/-- Responses the environment returns to the loader: the GET of the databus
file and the `create_resource` write into the platform. -/
structure LoaderEnv where
  downloadResponse : HttpResponse
  uploadResponse : HttpResponse
deriving DecidableEq, Repr

/-- One external call of the loader, in trace order. -/
inductive LoaderCall where
  | get (url : String)
  | create_resource (resource : String)
deriving DecidableEq, Repr

/-- The plugin attributes set by `SimpleDatabusLoadingPlugin.__init__` that
`execute` reads. -/
structure LoaderPlugin where
  databus_file_id : String
  target_file : String
deriving DecidableEq, Repr

/-- Embedding of `SimpleDatabusLoadingPlugin.execute` (loader.py:305-346). -/
def SimpleDatabusLoadingPlugin_execute (p : LoaderPlugin) (env : LoaderEnv) :
    List LoaderCall × ExecutionReport :=
  let resp := env.downloadResponse
  if resp.status > 400 then
    ([.get p.databus_file_id],
     { operation_desc := some "Download Failed ❌", error := some resp.body })
  else
    let up := env.uploadResponse
    if up.status < 400 then
      ([.get p.databus_file_id, .create_resource p.target_file],
       { operation_desc := some "Download Successful ✓",
         entity_count := some 1 })
    else
      ([.get p.databus_file_id, .create_resource p.target_file],
       { operation_desc := some "Download Failed ❌", error := some up.body })

/-- Number of `create_resource` (upload) calls in a loader trace. -/
def uploadCallCount (tr : List LoaderCall) : Nat :=
  (tr.filter (fun e => match e with | .create_resource _ => true | _ => false)).length

def loaderDemo : LoaderPlugin :=
  ⟨"https://databus.dbpedia.org/acc/grp/art/1.0/file.ttl", "target.ttl"⟩

/-- GET answers 404 Not Found. -/
def loaderEnv404 : LoaderEnv := ⟨⟨404, "Not Found"⟩, ⟨200, "OK"⟩⟩

/-- GET answers 400 Bad Request; the platform write succeeds. -/
def loaderEnv400 : LoaderEnv := ⟨⟨400, "Bad Request"⟩, ⟨200, "OK"⟩⟩

/-! ## Publisher plugin configuration validation

`validate_dataset_artifact_uri` and `DatabusDeployPlugin.__init__` from
`src/cmem_plugin_databus/publisher.py` lines 52-58 and 125-158:

```python
def validate_dataset_artifact_uri(uri: str):
    pattern = r"^https?://[^/]+/[^/]+/[^/]+/[^/]+/$"
    if re.match(pattern, uri):
        return True
    return False

class DatabusDeployPlugin(WorkflowPlugin):
    def __init__(self, dataset_artifact_uri, version, license_uri, api_key,
                 source_dataset, cvs, chunk_size):
        if validate_dataset_artifact_uri(dataset_artifact_uri):
            raise ValueError("The specified dataset artifact uri is not valid")
        self.dataset_artifact_uri = dataset_artifact_uri
        databus_base, user, _, _ = self.__get_identifier_from_artifact()
        self.webdav_handler = WebDAVHandler(
            databus_base=databus_base + "/", user=user, api_key=api_key)
        self.version = version
        self.license_uri = license_uri
        self.api_key = api_key
        self.cvs = {}
        for content_variant in cvs.split(","):
            key, value = content_variant.split("=")
            self.cvs[key] = value
        self.fileformat = "ttl"
        self.source_dataset = source_dataset
        self.chunk_size = chunk_size

    def __get_identifier_from_artifact(self):
        databus_base, user, group, artifact = \
            self.dataset_artifact_uri.rstrip("/ ").rsplit("/", 3)
        return str(databus_base), str(user), str(group), str(artifact)
```

The anchored regular expression `^https?://[^/]+/[^/]+/[^/]+/[^/]+/$` is
embedded by direct decomposition: an optional-`s` scheme prefix followed by
exactly four non-empty slash-free segments, each terminated by `/`, ending
the string — precisely the documented shape
`https://{DATABUS_BASE_URI}/{PUBLISHER}/{GROUP}/{ARTIFACT}/`.  Raising
`ValueError` is the `Except.error` case.
-/

/-- Python `s.startswith(pre)`. -/
def pyStartsWith (s pre : String) : Bool := pre.data.isPrefixOf s.data

/-- Python `s[n:]` (drop the first `n` characters). -/
def pyDropChars (s : String) (n : Nat) : String := String.mk (s.data.drop n)

/-- Python `s.rstrip("/ ")`. -/
def pyRstripSlashSpace (s : String) : String :=
  String.mk ((s.data.reverse.dropWhile (fun ch => ch = '/' || ch = ' ')).reverse)

/-- Embedding of `validate_dataset_artifact_uri` (publisher.py:52-58): `re.match` of
`^https?://[^/]+/[^/]+/[^/]+/[^/]+/$`.  A match is the scheme, then a rest
that splits on `/` into exactly four non-empty segments followed by the
empty remainder after the final slash. -/
def validate_dataset_artifact_uri (uri : String) : Bool :=
  match (if pyStartsWith uri "https://" then some (pyDropChars uri 8)
         else if pyStartsWith uri "http://" then some (pyDropChars uri 7)
         else none) with
  | none => false
  | some rest =>
      match pySplit rest '/' with
      | [a, b, c, d, tail] =>
          !a.data.isEmpty && !b.data.isEmpty && !c.data.isEmpty
            && !d.data.isEmpty && tail.data.isEmpty
      | _ => false

/-- Python `s.rsplit("/", 3)`: at most three splits, taken from the right. -/
def pyRsplit3 (s : String) : List String :=
  let parts := pySplit s '/'
  if parts.length ≤ 4 then parts
  else pyJoin "/" (parts.take (parts.length - 3))
        :: parts.drop (parts.length - 3)

inductive PyError where
  | valueError (msg : String)
deriving DecidableEq, Repr

/-- The attributes `DatabusDeployPlugin.__init__` assigns. -/
structure DeployPluginState where
  dataset_artifact_uri : String
  databus_base : String
  user : String
  dav_base : String
  version : String
  license_uri : String
  api_key : String
  cvs : List (String × String)
  fileformat : String
  source_dataset : String
  chunk_size : Nat
deriving DecidableEq, Repr

/-- The `for content_variant in cvs.split(",")` loop: each entry must split
on `=` into exactly key and value, else unpacking raises `ValueError`. -/
def parse_cvs (cvs : String) : Except PyError (List (String × String)) :=
  (pySplit cvs ',').mapM (fun cv =>
    match pySplit cv '=' with
    | [k, v] => .ok (k, v)
    | _ => .error (.valueError "content variant unpack"))

/-- Embedding of `DatabusDeployPlugin.__init__` (publisher.py:125-158).  `Except.error`
models raising; the state mirrors the assigned attributes
(`dav_base = databus_base + "/" + f"dav/{user}/"` via `WebDAVHandler`). -/
def DatabusDeployPlugin_init (dataset_artifact_uri version license_uri api_key
    source_dataset cvs : String) (chunk_size : Nat) :
    Except PyError DeployPluginState :=
  if validate_dataset_artifact_uri dataset_artifact_uri then
    .error (.valueError "The specified dataset artifact uri is not valid")
  else
    match pyRsplit3 (pyRstripSlashSpace dataset_artifact_uri) with
    | [databus_base, user, _group, _artifact] =>
        match parse_cvs cvs with
        | .error e => .error e
        | .ok cvsParsed =>
            .ok { dataset_artifact_uri := dataset_artifact_uri
                  databus_base := databus_base
                  user := user
                  dav_base := databus_base ++ "/" ++ "dav/" ++ user ++ "/"
                  version := version
                  license_uri := license_uri
                  api_key := api_key
                  cvs := cvsParsed
                  fileformat := "ttl"
                  source_dataset := source_dataset
                  chunk_size := chunk_size }
    | _ => .error (.valueError "not enough values to unpack")

/-- Returns `true` iff construction succeeded. -/
def initSucceeds (r : Except PyError DeployPluginState) : Bool :=
  match r with
  | .ok _ => true
  | .error _ => false

/-! ## SPARQL result extraction

`fetch_query_result_by_key` from `src/cmem_plugin_databus/utils.py`
lines 95-117:

```python
def fetch_query_result_by_key(endpoint, query, key):
    sparql_service = SPARQLWrapper(endpoint)
    ...
    query_results = sparql_service.query().convert()
    try:
        results = list(
            map(lambda binding: str(binding[key]["value"]),
                query_results["results"]["bindings"]))
    except KeyError:
        results = []
    return results
```

The network and SPARQL layers are external; the embedded function is the
pure part mapping the decoded JSON response (`query_results`) and the key to
the result.  Python subscripting on a non-dict raises `TypeError`;
subscripting a dict without the key raises `KeyError`; iterating a
non-iterable raises `TypeError`; only `KeyError` is caught.
-/

/-- JSON-ish values as decoded by the SPARQL client. -/
inductive Json where
  | str (s : String)
  | num (n : Int)
  | obj (fields : List (String × Json))
  | arr (elems : List Json)

/-- The Python exceptions that can escape the extraction. -/
inductive PyExc where
  | keyError (k : String)
  | typeError
deriving DecidableEq, Repr

/-- Python `x[k]` for a string key: `KeyError` on a dict without the key,
`TypeError` on a non-dict. -/
def Json.getItem : Json → String → Except PyExc Json
  | .obj fields, k =>
      match fields.lookup k with
      | some v => .ok v
      | none => .error (.keyError k)
  | _, _ => .error .typeError

/-- Iterating a value: a list yields its elements, a dict its keys, a string
its characters; a number is not iterable (`TypeError`). -/
def Json.iterate : Json → Except PyExc (List Json)
  | .arr xs => .ok xs
  | .obj fields => .ok (fields.map (fun p => Json.str p.1))
  | .str s => .ok (s.data.map (fun ch => Json.str (String.singleton ch)))
  | .num _ => .error .typeError

/-- Python `str(v)`.  Only the string case is ever exercised by the theorems below;
the renderings of the other cases are abbreviations, not Python's exact
formatting. -/
def pyStr : Json → String
  | .str s => s
  | .num n => toString n
  | .obj _ => "<dict>"
  | .arr _ => "<list>"

/-- The body of the `try` block: look up `"results"`, then `"bindings"`,
iterate, and take `str(binding[key]["value"])` of every binding, failing on
the first exception. -/
def extract_results (query_results : Json) (key : String) :
    Except PyExc (List String) := do
  let res ← query_results.getItem "results"
  let bindings ← res.getItem "bindings"
  let items ← bindings.iterate
  items.mapM (fun binding => do
    let v ← binding.getItem key
    let vv ← v.getItem "value"
    pure (pyStr vv))

/-- Embedding of `fetch_query_result_by_key` (utils.py:95-117), pure part: the `try`
block with `except KeyError: results = []`. -/
def fetch_query_result_by_key (query_results : Json) (key : String) :
    Except PyExc (List String) :=
  match extract_results query_results key with
  | .error (.keyError _) => .ok []
  | .error e => .error e
  | .ok results => .ok results

/-- A response whose single binding *does contain* the requested key
`"acc"`, but whose value object lacks the `"value"` sub-key. -/
def respValueMissing : Json :=
  Json.obj [("results", Json.obj [("bindings",
    Json.arr [Json.obj [("acc", Json.obj [])]])])]

/-- A response with no `"results"` member at all. -/
def respNoResults : Json := Json.obj [("head", Json.obj [])]

/-! ## Theorems -/

/-- The function `Nat.toDigitsCore` only ever prepends to its accumulator. -/
theorem toDigitsCore_eq_append (b : Nat) :
    ∀ (f n : Nat) (ds : List Char),
      Nat.toDigitsCore b f n ds = Nat.toDigitsCore b f n [] ++ ds := by
  intro f
  induction f with
  | zero => intro n ds; simp [Nat.toDigitsCore]
  | succ f ih =>
    intro n ds
    simp only [Nat.toDigitsCore]
    by_cases h : n / b = 0
    · simp [h]
    · simp only [if_neg h]
      rw [ih (n / b) (Nat.digitChar (n % b) :: ds), ih (n / b) [Nat.digitChar (n % b)]]
      simp

/-- The last character of the decimal representation of `n` is the digit
character of `n % 10`. -/
theorem toDigits_getLast? (n : Nat) :
    (Nat.toDigits 10 n).getLast? = some (Nat.digitChar (n % 10)) := by
  show (Nat.toDigitsCore 10 (n + 1) n []).getLast? = _
  simp only [Nat.toDigitsCore]
  by_cases h : n / 10 = 0
  · simp [h]
  · simp only [if_neg h]
    rw [toDigitsCore_eq_append 10 n (n / 10) [Nat.digitChar (n % 10)]]
    simp

theorem pyDigitToInt_digitChar (d : Nat) (h : d < 10) :
    pyDigitToInt (Nat.digitChar d) = d := by
  interval_cases d <;> decide

/-- Closed form of `get_clock`: the dict is keyed by `n % 10`. -/
theorem get_clock_eq_mod (n : Nat) : get_clock n = clockDict (n % 10) := by
  unfold get_clock pyReprLastChar
  rw [toDigits_getLast?]
  simp only [Option.some_bind]
  rw [pyDigitToInt_digitChar (n % 10) (Nat.mod_lt n (by decide))]

theorem clockDict_isSome (d : Nat) (h : d < 10) :
    ∃ s, clockDict d = some s ∧
      s ∈ ["🕛", "🕐", "🕑", "🕓", "🕔", "🕕", "🕖", "🕗", "🕘", "🕚"] := by
  interval_cases d <;> exact ⟨_, rfl, by decide⟩

/-- C5: for every non-negative integer `n`, `get_clock n = get_clock (n + 10)`
(periodicity); `get_clock` is total on the non-negative integers and returns
one of the 10 fixed symbols, keyed by `n mod 10`.  (Purity is inherent: the
embedding is a plain function of its argument, matching the source, which
touches no state.)  The identical copies in `utils.py` and `cmem_utils.py`
are both embedded by `get_clock`. -/
theorem C5_get_clock_periodic_total (n : Nat) :
    get_clock (n + 10) = get_clock n ∧
    get_clock n = clockDict (n % 10) ∧
    ∃ s, get_clock n = some s ∧
      s ∈ ["🕛", "🕐", "🕑", "🕓", "🕔", "🕕", "🕖", "🕗", "🕘", "🕚"] := by
  refine ⟨?_, get_clock_eq_mod n, ?_⟩
  · rw [get_clock_eq_mod, get_clock_eq_mod, Nat.add_mod_right]
  · rw [get_clock_eq_mod]
    exact clockDict_isSome (n % 10) (Nat.mod_lt n (by decide))

/-- For a positive step, any sufficient amount of fuel gives the same list. -/
theorem pyRangeAux_fuel_irrel (step : Nat) (hstep : 0 < step) :
    ∀ (f f' start stop : Nat), stop - start ≤ f → stop - start ≤ f' →
      pyRangeAux step f start stop = pyRangeAux step f' start stop := by
  intro f
  induction f with
  | zero =>
    intro f' start stop hf hf'
    have hns : ¬ start < stop := by omega
    cases f' with
    | zero => rfl
    | succ g => simp [pyRangeAux, hns]
  | succ g ih =>
    intro f' start stop hf hf'
    by_cases hlt : start < stop
    · cases f' with
      | zero => omega
      | succ g' =>
        simp only [pyRangeAux, if_pos hlt]
        rw [ih g' (start + step) stop (by omega) (by omega)]
    · cases f' with
      | zero => simp [pyRangeAux, hlt]
      | succ g' => simp [pyRangeAux, hlt]

/-- Unfolding equation of `pyRange` for a positive step. -/
theorem pyRange_eq (start stop step : Nat) (hstep : 0 < step) :
    pyRange start stop step
      = if start < stop then start :: pyRange (start + step) stop step
        else [] := by
  unfold pyRange
  rw [if_neg (by omega : ¬ step = 0), if_neg (by omega : ¬ step = 0)]
  by_cases hlt : start < stop
  · rw [if_pos hlt, show stop - start = (stop - start - 1) + 1 by omega]
    simp only [pyRangeAux, if_pos hlt]
    rw [pyRangeAux_fuel_irrel step hstep (stop - start - 1) (stop - (start + step))
      (start + step) stop (by omega) (by omega)]
  · rw [if_neg hlt, show stop - start = 0 by omega]
    rfl

theorem pyRange_join_slices_aux {α : Type} (c : Nat) (hc : 0 < c)
    (data : List α) :
    ∀ (m s : Nat), data.length - s ≤ m →
      ((pyRange s data.length c).map (fun i => pySlice data i c)).flatten
        = data.drop s := by
  intro m
  induction m with
  | zero =>
    intro s hs
    rw [pyRange_eq s data.length c hc, if_neg (by omega : ¬ s < data.length)]
    simp [List.drop_eq_nil_of_le (by omega : data.length ≤ s)]
  | succ m ih =>
    intro s hs
    rw [pyRange_eq s data.length c hc]
    by_cases hlt : s < data.length
    · rw [if_pos hlt]
      simp only [List.map_cons, List.flatten_cons]
      rw [ih (s + c) (by omega)]
      unfold pySlice
      rw [← List.drop_drop]
      exact List.take_append_drop c (data.drop s)
    · rw [if_neg hlt]
      simp [List.drop_eq_nil_of_le (by omega : data.length ≤ s)]

/-- Concatenating all chunks reconstructs the buffer. -/
theorem chunksOfData_join {α : Type} (data : List α) (c : Nat) (hc : 0 < c) :
    (chunksOfData data c).flatten = data := by
  have := pyRange_join_slices_aux c hc data data.length 0 (by omega)
  simpa [chunksOfData] using this

theorem pyRange_ne_nil (s stop c : Nat) (hc : 0 < c) (h : s < stop) :
    pyRange s stop c ≠ [] := by
  rw [pyRange_eq s stop c hc, if_pos h]
  simp

/-- Every chunk except possibly the last has length exactly `c`. -/
theorem chunksOfData_dropLast_aux {α : Type} (c : Nat) (hc : 0 < c)
    (data : List α) :
    ∀ (m s : Nat), data.length - s ≤ m →
      ∀ l ∈ ((pyRange s data.length c).map (fun i => pySlice data i c)).dropLast,
        l.length = c := by
  intro m
  induction m with
  | zero =>
    intro s hs
    rw [pyRange_eq s data.length c hc, if_neg (by omega : ¬ s < data.length)]
    simp
  | succ m ih =>
    intro s hs
    rw [pyRange_eq s data.length c hc]
    by_cases hlt : s < data.length
    · rw [if_pos hlt]
      simp only [List.map_cons]
      by_cases hrest : s + c < data.length
      · have hne : (pyRange (s + c) data.length c).map
            (fun i => pySlice data i c) ≠ [] := by
          intro hnil
          exact pyRange_ne_nil (s + c) data.length c hc hrest
            (List.map_eq_nil_iff.mp hnil)
        rw [List.dropLast_cons_of_ne_nil hne]
        intro l hl
        rcases List.mem_cons.mp hl with h1 | h2
        · subst h1
          unfold pySlice
          rw [List.length_take, List.length_drop]
          omega
        · exact ih (s + c) (by omega) l h2
      · rw [pyRange_eq (s + c) data.length c hc, if_neg hrest]
        simp
    · rw [if_neg hlt]
      simp

/-- Every chunk has length at most `c`. -/
theorem chunksOfData_le {α : Type} (data : List α) (c : Nat) :
    ∀ l ∈ chunksOfData data c, l.length ≤ c := by
  intro l hl
  rcases List.mem_map.mp hl with ⟨i, _, rfl⟩
  unfold pySlice
  rw [List.length_take]
  omega

/-- Number of chunks is `⌈length / c⌉`. -/
theorem pyRange_length_aux (c : Nat) (hc : 0 < c) (stop : Nat) :
    ∀ (m s : Nat), stop - s ≤ m →
      (pyRange s stop c).length = (stop - s + c - 1) / c := by
  intro m
  induction m with
  | zero =>
    intro s hs
    rw [pyRange_eq s stop c hc, if_neg (by omega : ¬ s < stop)]
    rw [show stop - s = 0 by omega]
    simp [Nat.div_eq_of_lt (by omega : c - 1 < c)]
  | succ m ih =>
    intro s hs
    rw [pyRange_eq s stop c hc]
    by_cases hlt : s < stop
    · rw [if_pos hlt]
      rw [List.length_cons, ih (s + c) (by omega)]
      rw [show stop - s + c - 1 = (stop - s - 1) + c by omega]
      rw [Nat.add_div_right _ hc]
      by_cases hcs : s + c ≤ stop
      · rw [show stop - (s + c) + c - 1 = stop - s - 1 by omega]
      · rw [show stop - (s + c) = 0 by omega]
        rw [show 0 + c - 1 = c - 1 by omega]
        rw [Nat.div_eq_of_lt (by omega : c - 1 < c),
          Nat.div_eq_of_lt (by omega : stop - s - 1 < c)]
    · rw [if_neg hlt]
      rw [show stop - s = 0 by omega]
      simp [Nat.div_eq_of_lt (by omega : c - 1 < c)]

theorem chunksOfData_length {α : Type} (data : List α) (c : Nat) (hc : 0 < c) :
    (chunksOfData data c).length = (data.length + c - 1) / c := by
  unfold chunksOfData
  rw [List.length_map, pyRange_length_aux c hc data.length data.length 0 (by omega)]
  simp

theorem emitChunks_yielded (c : Nat) (desc : String) :
    ∀ (i : Nat) (chs : List (List Nat)),
      yieldedChunks (emitChunks c desc i chs) = chs := by
  intro i chs
  induction chs generalizing i with
  | nil => simp [emitChunks, yieldedChunks]
  | cons ch rest ih =>
    simp [emitChunks, yieldedChunks] at ih ⊢
    exact ih (i + 1)

theorem emitChunks_reports (c : Nat) (desc : String) :
    ∀ (i : Nat) (chs : List (List Nat)),
      reportsOf (emitChunks c desc i chs)
        = (List.range chs.length).map (fun j => chunkReport c desc (i + j)) := by
  intro i chs
  induction chs generalizing i with
  | nil => simp [emitChunks, reportsOf]
  | cons ch rest ih =>
    have hcons : reportsOf (emitChunks c desc i (ch :: rest))
        = chunkReport c desc i :: reportsOf (emitChunks c desc (i + 1) rest) := rfl
    rw [hcons, ih (i + 1), List.length_cons, List.range_succ_eq_map]
    simp only [List.map_cons, List.map_map, Nat.add_zero]
    congr 1
    refine List.map_congr_left (fun j _ => ?_)
    simp only [Function.comp_apply, Nat.succ_eq_add_one]
    rw [show i + 1 + j = i + (j + 1) by omega]

theorem emitChunks_alternate (c : Nat) (desc : String) :
    ∀ (i : Nat) (chs : List (List Nat)),
      emitChunks c desc i chs
        = alternateRC (reportsOf (emitChunks c desc i chs))
            (yieldedChunks (emitChunks c desc i chs)) := by
  intro i chs
  induction chs generalizing i with
  | nil => simp [emitChunks, reportsOf, yieldedChunks, alternateRC]
  | cons ch rest ih =>
    simp only [emitChunks, reportsOf, yieldedChunks, List.filterMap_cons]
    rw [alternateRC]
    exact congrArg _ (congrArg _ (ih (i + 1)))

/-- C3: for every byte buffer `B` and chunk size `c > 0`, concatenating the
chunks yielded by `byte_iterator_context_update` in order reconstructs `B`
exactly; every yielded slice has length `c` except possibly the last (all
slices before the last have length exactly `c`, every slice has length at
most `c`); and the sum of the yielded slice lengths equals `B`'s length. -/
theorem C3_chunk_iterator_reconstructs (data : List Nat) (c : Nat)
    (desc : String) (hc : 0 < c) :
    (yieldedChunks (byte_iterator_context_update data c desc)).flatten = data ∧
    (∀ l ∈ (yieldedChunks (byte_iterator_context_update data c desc)).dropLast,
      l.length = c) ∧
    (∀ l ∈ yieldedChunks (byte_iterator_context_update data c desc),
      l.length ≤ c) ∧
    ((yieldedChunks (byte_iterator_context_update data c desc)).map
      List.length).sum = data.length := by
  have hy : yieldedChunks (byte_iterator_context_update data c desc)
      = chunksOfData data c := emitChunks_yielded c desc 0 (chunksOfData data c)
  rw [hy]
  refine ⟨chunksOfData_join data c hc, ?_, chunksOfData_le data c, ?_⟩
  · exact chunksOfData_dropLast_aux c hc data data.length 0 (by omega)
  · rw [← List.length_flatten, chunksOfData_join data c hc]

/-- C3 witness: the theorem applied at `B = [1,2,3,4,5]`, `c = 2`. -/
theorem C3_chunk_iterator_reconstructs_witness :
    (yieldedChunks
      (byte_iterator_context_update [1, 2, 3, 4, 5] 2 "Uploading File")).flatten
      = [1, 2, 3, 4, 5] :=
  (C3_chunk_iterator_reconstructs [1, 2, 3, 4, 5] 2 "Uploading File"
    (by decide)).1

theorem sum_map_length_const (c : Nat) :
    ∀ l : List (List Nat), (∀ x ∈ l, x.length = c) →
      (l.map List.length).sum = l.length * c := by
  intro l
  induction l with
  | nil => simp
  | cons x xs ih =>
    intro h
    simp only [List.map_cons, List.sum_cons, List.length_cons]
    rw [h x (by simp), ih (fun y hy => h y (by simp [hy]))]
    ring

/-- Bytes emitted before chunk `j` equal `j * c` (all earlier chunks are
full-size). -/
theorem chunksOfData_take_sum (data : List Nat) (c : Nat) (hc : 0 < c)
    (j : Nat) (hj : j < (chunksOfData data c).length) :
    (((chunksOfData data c).take j).map List.length).sum = j * c := by
  have hall : ∀ x ∈ (chunksOfData data c).take j, x.length = c := by
    intro x hx
    have hpre : (chunksOfData data c).take j
        = ((chunksOfData data c).dropLast).take j := by
      rw [List.dropLast_eq_take, List.take_take]
      congr 1
      omega
    rw [hpre] at hx
    exact chunksOfData_dropLast_aux c hc data data.length 0 (by omega) x
      (List.mem_of_mem_take hx)
  rw [sum_map_length_const c _ hall, List.length_take]
  have : min j (chunksOfData data c).length = j := by omega
  rw [this]

/-- C4 counterexample: the claim says the progress sink is passed the number
of bytes emitted so far, but the code passes `(i * chunksize) // 1000000`
(whole megabytes).  At `B = [0, 0]`, `c = 1`, the invocation for chunk
index 1 receives `entity_count = 0` although 1 byte was emitted so far. -/
theorem C4_counterexample_entity_count_not_bytes :
    ¬ (∀ (j : Nat) (r : ExecutionReport),
        (reportsOf (byte_iterator_context_update [0, 0] 1 "Uploading File"))[j]?
          = some r →
        r.entity_count = some ((((yieldedChunks
          (byte_iterator_context_update [0, 0] 1 "Uploading File")).take j).map
            List.length).sum)) := by
  intro h
  have h1 := h 1 (chunkReport 1 "Uploading File" 1) (by decide)
  exact absurd h1 (by decide)

/-- C4 (amended): for every buffer `B` and chunk size `c > 0`, the chunk
iterator invokes the progress sink exactly once per yielded chunk — hence
exactly `⌈|B| / c⌉` times — with each invocation happening before the
corresponding chunk is yielded (the trace strictly alternates report, chunk,
report, chunk, …); the `j`-th invocation is passed *the number of whole
megabytes emitted so far* `(j * c) / 1000000` (not the byte count `j * c`
claimed), the fixed operation string `"wait"`, and an operation description
combining the label with the clock symbol for the chunk index. -/
theorem C4_progress_sink_per_chunk (data : List Nat) (c : Nat) (desc : String)
    (hc : 0 < c) :
    (reportsOf (byte_iterator_context_update data c desc)).length
      = (data.length + c - 1) / c ∧
    (yieldedChunks (byte_iterator_context_update data c desc)).length
      = (reportsOf (byte_iterator_context_update data c desc)).length ∧
    byte_iterator_context_update data c desc
      = alternateRC (reportsOf (byte_iterator_context_update data c desc))
          (yieldedChunks (byte_iterator_context_update data c desc)) ∧
    (∀ j, j < (reportsOf (byte_iterator_context_update data c desc)).length →
      (reportsOf (byte_iterator_context_update data c desc))[j]?
        = some { entity_count := some ((j * c) / 1000000)
                 operation := some "wait"
                 operation_desc := some (desc ++ " " ++ get_clock_s j) } ∧
      (((yieldedChunks (byte_iterator_context_update data c desc)).take j).map
        List.length).sum = j * c) := by
  have hrep : reportsOf (byte_iterator_context_update data c desc)
      = (List.range (chunksOfData data c).length).map
          (fun j => chunkReport c desc j) := by
    have := emitChunks_reports c desc 0 (chunksOfData data c)
    simpa [byte_iterator_context_update] using this
  have hy : yieldedChunks (byte_iterator_context_update data c desc)
      = chunksOfData data c := emitChunks_yielded c desc 0 (chunksOfData data c)
  have hlen : (reportsOf (byte_iterator_context_update data c desc)).length
      = (chunksOfData data c).length := by rw [hrep]; simp
  refine ⟨?_, ?_, ?_, ?_⟩
  · rw [hlen, chunksOfData_length data c hc]
  · rw [hy, hlen]
  · exact emitChunks_alternate c desc 0 (chunksOfData data c)
  · intro j hj
    rw [hlen] at hj
    constructor
    · rw [hrep, List.getElem?_map, List.getElem?_range hj]
      rfl
    · rw [hy]
      exact chunksOfData_take_sum data c hc j hj

/-- C4 witness: the amended theorem applied at `B = [0, 0]`, `c = 1`: there
are exactly `⌈2 / 1⌉ = 2` sink invocations. -/
theorem C4_progress_sink_per_chunk_witness :
    (reportsOf (byte_iterator_context_update [0, 0] 1 "Uploading File")).length
      = (([0, 0] : List Nat).length + 1 - 1) / 1 :=
  (C4_progress_sink_per_chunk [0, 0] 1 "Uploading File" (by decide)).1

/-- On a normal return, the MKCOL calls of `create_dirs_loop` are issued
exactly for the accumulated prefixes whose existence probe reported absence,
and every collected response has a status in {200, 201, 405}. -/
theorem create_dirs_loop_ok_spec (env : DavEnv) (h : WebDAVHandler) :
    ∀ (dirs : List String) (cp : String) (tr : List DavCall)
      (rs : List ResponseRec),
      create_dirs_loop env h dirs cp = (tr, .ok rs) →
      mkcolUrls tr
        = ((accPrefixes cp dirs).filter
            (fun p => ! check_existence env h p)).map
            (fun p => h.dav_base ++ p)
      ∧ (∀ r ∈ rs, r.status = 200 ∨ r.status = 201 ∨ r.status = 405)
      ∧ rs.length = (mkcolUrls tr).length := by
  intro dirs
  induction dirs with
  | nil =>
    intro cp tr rs heq
    simp only [create_dirs_loop, Prod.mk.injEq] at heq
    obtain ⟨htr, hrs⟩ := heq
    cases hrs
    subst htr
    simp [mkcolUrls, accPrefixes]
  | cons d rest ih =>
    intro cp tr rs heq
    simp only [create_dirs_loop] at heq
    by_cases hex : check_existence env h (cp ++ d ++ "/")
    · rw [if_pos hex] at heq
      simp only [Prod.mk.injEq] at heq
      obtain ⟨htr, hres⟩ := heq
      have hn : create_dirs_loop env h rest (cp ++ d ++ "/")
          = ((create_dirs_loop env h rest (cp ++ d ++ "/")).1, .ok rs) := by
        rw [← hres]
      obtain ⟨hmk, hst, hlen⟩ := ih (cp ++ d ++ "/") _ rs hn
      subst htr
      refine ⟨?_, hst, ?_⟩
      · simp only [mkcolUrls, List.filterMap_cons, accPrefixes, List.filter_cons,
          hex]
        simpa [mkcolUrls] using hmk
      · simpa [mkcolUrls] using hlen
    · rw [if_neg hex] at heq
      by_cases hst : (create_dir env h (cp ++ d ++ "/")).status = 200
          ∨ (create_dir env h (cp ++ d ++ "/")).status = 201
          ∨ (create_dir env h (cp ++ d ++ "/")).status = 405
      · rw [if_pos hst] at heq
        cases hres : (create_dirs_loop env h rest (cp ++ d ++ "/")).2 with
        | ok rs' =>
          rw [hres] at heq
          simp only [Prod.mk.injEq] at heq
          obtain ⟨htr, hrs⟩ := heq
          cases hrs
          have hn : create_dirs_loop env h rest (cp ++ d ++ "/")
              = ((create_dirs_loop env h rest (cp ++ d ++ "/")).1, .ok rs') := by
            rw [← hres]
          obtain ⟨hmk, hstAll, hlen⟩ := ih (cp ++ d ++ "/") _ rs' hn
          subst htr
          refine ⟨?_, ?_, ?_⟩
          · simp only [mkcolUrls, List.filterMap_cons, accPrefixes,
              List.filter_cons, hex]
            simp only [Bool.not_false, if_pos, List.map_cons]
            simpa [mkcolUrls, create_dir] using hmk
          · intro r hr
            rcases List.mem_cons.mp hr with h1 | h2
            · subst h1; exact hst
            · exact hstAll r h2
          · simp only [List.length_cons, mkcolUrls, List.filterMap_cons]
            simpa [mkcolUrls] using hlen
        | error e =>
          rw [hres] at heq
          simp only [Prod.mk.injEq] at heq
          exact absurd heq.2 (by intro hc; cases hc)
      · rw [if_neg hst] at heq
        simp only [Prod.mk.injEq] at heq
        exact absurd heq.2 (by intro hc; cases hc)

theorem getLast?_cons_of_ne_nil {α : Type} (a : α) (l : List α) (hl : l ≠ []) :
    (a :: l).getLast? = l.getLast? := by
  cases l with
  | nil => exact absurd rfl hl
  | cons b t => simp [List.getLast?_cons_cons]

/-- On a raising run, `create_dirs_loop` fails on an MKCOL response outside
{200, 201, 405}; the raised error carries the method `"MKCOL"`, the URL of
the failing prefix, and the status and body the network returned for that
URL; and the failing MKCOL is the last call of the trace (nothing is issued
for subsequent segments). -/
theorem create_dirs_loop_error_spec (env : DavEnv) (h : WebDAVHandler) :
    ∀ (dirs : List String) (cp : String) (tr : List DavCall) (e : WebDAVError),
      create_dirs_loop env h dirs cp = (tr, .error e) →
      e.method = "MKCOL"
      ∧ ¬ (e.status = 200 ∨ e.status = 201 ∨ e.status = 405)
      ∧ e.status = (env.mkcolResponse e.url).status
      ∧ e.body = (env.mkcolResponse e.url).body
      ∧ (∃ p ∈ accPrefixes cp dirs, e.url = h.dav_base ++ p)
      ∧ tr.getLast? = some (.mkcol e.url) := by
  intro dirs
  induction dirs with
  | nil =>
    intro cp tr e heq
    simp only [create_dirs_loop, Prod.mk.injEq] at heq
    exact absurd heq.2 (by intro hc; cases hc)
  | cons d rest ih =>
    intro cp tr e heq
    simp only [create_dirs_loop] at heq
    by_cases hex : check_existence env h (cp ++ d ++ "/")
    · rw [if_pos hex] at heq
      simp only [Prod.mk.injEq] at heq
      obtain ⟨htr, hres⟩ := heq
      have hn : create_dirs_loop env h rest (cp ++ d ++ "/")
          = ((create_dirs_loop env h rest (cp ++ d ++ "/")).1, .error e) := by
        rw [← hres]
      obtain ⟨h1, h2, h3, h4, ⟨p, hp, hurl⟩, h6⟩ := ih (cp ++ d ++ "/") _ e hn
      subst htr
      have hne : (create_dirs_loop env h rest (cp ++ d ++ "/")).1 ≠ [] := by
        intro hnil
        rw [hnil] at h6
        exact absurd h6 (by intro hc; cases hc)
      refine ⟨h1, h2, h3, h4, ⟨p, ?_, hurl⟩, ?_⟩
      · simp [accPrefixes, hp]
      · rw [getLast?_cons_of_ne_nil _ _ hne]
        exact h6
    · rw [if_neg hex] at heq
      by_cases hst : (create_dir env h (cp ++ d ++ "/")).status = 200
          ∨ (create_dir env h (cp ++ d ++ "/")).status = 201
          ∨ (create_dir env h (cp ++ d ++ "/")).status = 405
      · rw [if_pos hst] at heq
        cases hres : (create_dirs_loop env h rest (cp ++ d ++ "/")).2 with
        | ok rs' =>
          rw [hres] at heq
          simp only [Prod.mk.injEq] at heq
          exact absurd heq.2 (by intro hc; cases hc)
        | error e' =>
          rw [hres] at heq
          simp only [Prod.mk.injEq] at heq
          obtain ⟨htr, hee⟩ := heq
          cases hee
          have hn : create_dirs_loop env h rest (cp ++ d ++ "/")
              = ((create_dirs_loop env h rest (cp ++ d ++ "/")).1, .error e) := by
            rw [← hres]
          obtain ⟨h1, h2, h3, h4, ⟨p, hp, hurl⟩, h6⟩ := ih (cp ++ d ++ "/") _ e hn
          subst htr
          have hne : (create_dirs_loop env h rest (cp ++ d ++ "/")).1 ≠ [] := by
            intro hnil
            rw [hnil] at h6
            exact absurd h6 (by intro hc; cases hc)
          refine ⟨h1, h2, h3, h4, ⟨p, ?_, hurl⟩, ?_⟩
          · simp [accPrefixes, hp]
          · rw [getLast?_cons_of_ne_nil _ _ (by simp),
              getLast?_cons_of_ne_nil _ _ hne]
            exact h6
      · rw [if_neg hst] at heq
        simp only [Prod.mk.injEq] at heq
        obtain ⟨htr, hee⟩ := heq
        cases hee
        subst htr
        refine ⟨rfl, ?_, rfl, rfl, ⟨cp ++ d ++ "/", by simp [accPrefixes], rfl⟩, rfl⟩
        simpa [create_dir, WebDAVError.ofResponse] using hst

/-- The loop `create_dirs_loop` never issues a PUT. -/
theorem create_dirs_loop_no_put (env : DavEnv) (h : WebDAVHandler) :
    ∀ (dirs : List String) (cp : String) (u : String),
      DavCall.put u ∉ (create_dirs_loop env h dirs cp).1 := by
  intro dirs
  induction dirs with
  | nil => intro cp u; simp [create_dirs_loop]
  | cons d rest ih =>
    intro cp u
    simp only [create_dirs_loop]
    by_cases hex : check_existence env h (cp ++ d ++ "/")
    · rw [if_pos hex]
      intro hmem
      rcases List.mem_cons.mp hmem with h1 | h2
      · cases h1
      · exact ih (cp ++ d ++ "/") u h2
    · rw [if_neg hex]
      by_cases hst : (create_dir env h (cp ++ d ++ "/")).status = 200
          ∨ (create_dir env h (cp ++ d ++ "/")).status = 201
          ∨ (create_dir env h (cp ++ d ++ "/")).status = 405
      · rw [if_pos hst]
        intro hmem
        rcases List.mem_cons.mp hmem with h1 | h2
        · cases h1
        · rcases List.mem_cons.mp h2 with h3 | h4
          · cases h3
          · exact ih (cp ++ d ++ "/") u h4
      · rw [if_neg hst]
        intro hmem
        rcases List.mem_cons.mp hmem with h1 | h2
        · cases h1
        · rcases List.mem_cons.mp h2 with h3 | h4
          · cases h3
          · cases h4

/-- C6: on a normal return, `create_dirs` issues an MKCOL exactly for the
accumulated path prefixes whose existence probe reports absence (in order);
if every segment already exists it issues zero MKCOLs and returns success
(the empty response list); and for the upload target path
`"a/b/c/file.ttl"` (directory part `"a/b/c"`) with only `"a"` pre-existing
it issues exactly 2 MKCOL calls, for directories `a/b` and `a/b/c` (the
request URLs carry the trailing slash the code appends). -/
theorem C6_create_dirs_mkcol_iff_absent :
    (∀ (env : DavEnv) (h : WebDAVHandler) (path : String) (tr : List DavCall)
        (rs : List ResponseRec),
      create_dirs env h path = (tr, .ok rs) →
      mkcolUrls tr
        = ((accPrefixes "" (pySplit path '/')).filter
            (fun p => ! check_existence env h p)).map
            (fun p => h.dav_base ++ p)) ∧
    (mkcolUrls (create_dirs envAllExist hDemo "a/b/c").1 = []
      ∧ (create_dirs envAllExist hDemo "a/b/c").2 = .ok []) ∧
    (rsplit1_head "a/b/c/file.ttl" = "a/b/c"
      ∧ mkcolUrls (create_dirs envOnlyA hDemo "a/b/c").1
          = ["https://databus.example.org/dav/user1/a/b/",
             "https://databus.example.org/dav/user1/a/b/c/"]
      ∧ (mkcolUrls (create_dirs envOnlyA hDemo "a/b/c").1).length = 2) := by
  refine ⟨?_, ⟨by decide, by decide⟩, by decide, by decide, by decide⟩
  intro env h path tr rs heq
  exact (create_dirs_loop_ok_spec env h (pySplit path '/') "" tr rs heq).1

/-- C6 witness: the universally quantified part applied to the concrete
"only `a` pre-exists" scenario. -/
theorem C6_create_dirs_mkcol_iff_absent_witness :
    mkcolUrls (create_dirs envOnlyA hDemo "a/b/c").1
      = ((accPrefixes "" (pySplit "a/b/c" '/')).filter
          (fun p => ! check_existence envOnlyA hDemo p)).map
          (fun p => hDemo.dav_base ++ p) :=
  C6_create_dirs_mkcol_iff_absent.1 envOnlyA hDemo "a/b/c"
    (create_dirs envOnlyA hDemo "a/b/c").1
    [⟨"MKCOL", "https://databus.example.org/dav/user1/a/b/", 201, "Created"⟩,
     ⟨"MKCOL", "https://databus.example.org/dav/user1/a/b/c/", 201, "Created"⟩]
    (by decide)

/-- C7: during `create_dirs`, an MKCOL response with status 200, 201 or 405
is treated as success; any other status makes the whole operation raise
immediately a `WebDAVException` carrying the HTTP method (`"MKCOL"`), the
request URL, and the status and body the network returned for it, and the
failing MKCOL is the last call of the trace — no probe or MKCOL is issued
for any subsequent segment.  Concretely, with every MKCOL answering 403
Forbidden, `create_dirs` on `"a/b/c"` stops after the very first MKCOL. -/
theorem C7_create_dirs_fail_fast :
    (∀ (env : DavEnv) (h : WebDAVHandler) (path : String) (tr : List DavCall)
        (e : WebDAVError),
      create_dirs env h path = (tr, .error e) →
      e.method = "MKCOL"
      ∧ ¬ (e.status = 200 ∨ e.status = 201 ∨ e.status = 405)
      ∧ e.status = (env.mkcolResponse e.url).status
      ∧ e.body = (env.mkcolResponse e.url).body
      ∧ tr.getLast? = some (.mkcol e.url)
      ∧ e.message
          = "Exception during WebDAV Request MKCOL to " ++ e.url
            ++ ": Status " ++ toString e.status ++ "\nResponse: " ++ e.body) ∧
    (create_dirs env403 hDemo "a/b/c"
      = ([.head "https://databus.example.org/dav/user1/a/",
          .mkcol "https://databus.example.org/dav/user1/a/"],
         .error ⟨"MKCOL", "https://databus.example.org/dav/user1/a/",
                 403, "Forbidden"⟩)) := by
  constructor
  · intro env h path tr e heq
    obtain ⟨h1, h2, h3, h4, _, h6⟩ :=
      create_dirs_loop_error_spec env h (pySplit path '/') "" tr e heq
    refine ⟨h1, h2, h3, h4, h6, ?_⟩
    unfold WebDAVError.message
    rw [h1, show ("Exception during WebDAV Request " ++ "MKCOL" ++ " to " : String)
      = "Exception during WebDAV Request MKCOL to " from rfl]
  · decide

/-- C7 witness: the universally quantified part applied to the concrete
403 scenario. -/
theorem C7_create_dirs_fail_fast_witness :
    (⟨"MKCOL", "https://databus.example.org/dav/user1/a/", 403,
        "Forbidden"⟩ : WebDAVError).method = "MKCOL" :=
  (C7_create_dirs_fail_fast.1 env403 hDemo "a/b/c"
    [.head "https://databus.example.org/dav/user1/a/",
     .mkcol "https://databus.example.org/dav/user1/a/"]
    ⟨"MKCOL", "https://databus.example.org/dav/user1/a/", 403, "Forbidden"⟩
    (by decide)).1

/-- C10: whenever `create_dirs` returns normally, every response in the
returned list has status in {200, 201, 405}; consequently the re-check of
`responses[-1]` in `upload_file_with_context` never raises — it yields no
error for the returned list (in particular the empty list, where all
directories already existed, passes the `if responses and …` guard), and
the upload proceeds to the PUT. -/
theorem C10_create_dirs_ok_statuses :
    (∀ (env : DavEnv) (h : WebDAVHandler) (path : String) (tr : List DavCall)
        (rs : List ResponseRec),
      create_dirs env h path = (tr, .ok rs) →
      (∀ r ∈ rs, r.status = 200 ∨ r.status = 201 ∨ r.status = 405)
      ∧ lastCheckError rs = none) ∧
    (∀ (env : DavEnv) (h : WebDAVHandler) (path : String) (data : List Nat)
        (c : Nat) (tr : List DavCall) (rs : List ResponseRec),
      create_dirs env h (rsplit1_head path) = (tr, .ok rs) →
      upload_file_with_context env h path data c true
        = (tr ++ [.put (h.dav_base ++ path)],
           .ok ⟨"PUT", h.dav_base ++ path,
                (env.putResponse (h.dav_base ++ path)).status,
                (env.putResponse (h.dav_base ++ path)).body⟩)) := by
  have hmain : ∀ (env : DavEnv) (h : WebDAVHandler) (path : String)
      (tr : List DavCall) (rs : List ResponseRec),
      create_dirs env h path = (tr, .ok rs) →
      (∀ r ∈ rs, r.status = 200 ∨ r.status = 201 ∨ r.status = 405)
      ∧ lastCheckError rs = none := by
    intro env h path tr rs heq
    have hst := (create_dirs_loop_ok_spec env h (pySplit path '/') "" tr rs heq).2.1
    refine ⟨hst, ?_⟩
    unfold lastCheckError
    cases hlast : rs.getLast? with
    | none => rfl
    | some r =>
      have hr : r ∈ rs := List.mem_of_getLast?_eq_some hlast
      show (if r.status = 200 ∨ r.status = 201 ∨ r.status = 405 then none
            else some (WebDAVError.ofResponse r)) = none
      rw [if_pos (hst r hr)]
  refine ⟨hmain, ?_⟩
  intro env h path data c tr rs heq
  unfold upload_file_with_context
  simp only [if_pos rfl, heq]
  rw [(hmain env h (rsplit1_head path) tr rs heq).2]
  simp

/-- C10 witness: with every directory already existing, `create_dirs`
returns the empty response list, the re-check yields no error, and the PUT
is issued. -/
theorem C10_create_dirs_ok_statuses_witness :
    upload_file_with_context envAllExist hDemo "a/b/c/file.ttl" [7] 1 true
      = ((create_dirs envAllExist hDemo "a/b/c").1
          ++ [.put (hDemo.dav_base ++ "a/b/c/file.ttl")],
         .ok ⟨"PUT", hDemo.dav_base ++ "a/b/c/file.ttl", 201, "Created"⟩) :=
  C10_create_dirs_ok_statuses.2 envAllExist hDemo "a/b/c/file.ttl" [7] 1
    (create_dirs envAllExist hDemo "a/b/c").1 [] (by decide)

/-- C8: in `upload_file_with_context` with `create_parent_dirs = True`, if
the directory-ensure step raises, the PUT is never issued: the operation
returns that very error with exactly the trace of the failed
`create_dirs` run, which contains no PUT call — no byte of the payload is
sent (the chunk generator created earlier is lazy and unconsumed). -/
theorem C8_upload_aborts_on_dir_failure (env : DavEnv) (h : WebDAVHandler)
    (path : String) (data : List Nat) (c : Nat) (tr : List DavCall)
    (e : WebDAVError)
    (hfail : create_dirs env h (rsplit1_head path) = (tr, .error e)) :
    upload_file_with_context env h path data c true = (tr, .error e)
    ∧ ∀ u, DavCall.put u ∉ tr := by
  constructor
  · unfold upload_file_with_context
    simp only [if_pos rfl, hfail]
    simp
  · intro u
    have := create_dirs_loop_no_put env h (pySplit (rsplit1_head path) '/') "" u
    have htr : tr = (create_dirs_loop env h (pySplit (rsplit1_head path) '/') "").1 := by
      unfold create_dirs at hfail
      rw [hfail]
    rw [htr]
    exact this

/-- C8 witness: the theorem applied to the 403 scenario. -/
theorem C8_upload_aborts_on_dir_failure_witness :
    upload_file_with_context env403 hDemo "a/b/c/file.ttl" [7] 1 true
      = ([.head "https://databus.example.org/dav/user1/a/",
          .mkcol "https://databus.example.org/dav/user1/a/"],
         .error ⟨"MKCOL", "https://databus.example.org/dav/user1/a/",
                 403, "Forbidden"⟩) :=
  (C8_upload_aborts_on_dir_failure env403 hDemo "a/b/c/file.ttl" [7] 1
    [.head "https://databus.example.org/dav/user1/a/",
     .mkcol "https://databus.example.org/dav/user1/a/"]
    ⟨"MKCOL", "https://databus.example.org/dav/user1/a/", 403, "Forbidden"⟩
    (by decide)).1

/-- C1 (evaluation at the failing input): the 404 half of the claim holds —
a download response with status 404 ends in the `Download Failed ❌` report
carrying the response body as error, with zero upload (`create_resource`)
calls.  But because the source tests `status_code > 400` instead of
`>= 400`, a download response with status 400 — which the claim requires to
fail with zero upload calls — instead issues a `create_resource` call and,
when that write succeeds, reports `Download Successful ✓`. -/
theorem C1_loader_boundary_status_400 :
    (SimpleDatabusLoadingPlugin_execute loaderDemo loaderEnv404
        = ([.get loaderDemo.databus_file_id],
           { operation_desc := some "Download Failed ❌",
             error := some "Not Found" })
      ∧ uploadCallCount
          (SimpleDatabusLoadingPlugin_execute loaderDemo loaderEnv404).1 = 0) ∧
    (uploadCallCount
        (SimpleDatabusLoadingPlugin_execute loaderDemo loaderEnv400).1 = 1
      ∧ (SimpleDatabusLoadingPlugin_execute loaderDemo loaderEnv400).2
          = { operation_desc := some "Download Successful ✓",
              entity_count := some 1 }
      ∧ (SimpleDatabusLoadingPlugin_execute loaderDemo loaderEnv400).2.error
          = none) := by
  refine ⟨⟨by decide, by decide⟩, by decide, by decide, by decide⟩

/-- For completeness: for any response status strictly above 400 the loader
reports `Download Failed ❌` with the response body and performs no upload
call. -/
theorem loader_fails_above_400 (p : LoaderPlugin) (env : LoaderEnv)
    (hst : env.downloadResponse.status > 400) :
    SimpleDatabusLoadingPlugin_execute p env
      = ([.get p.databus_file_id],
         { operation_desc := some "Download Failed ❌",
           error := some env.downloadResponse.body })
    ∧ uploadCallCount (SimpleDatabusLoadingPlugin_execute p env).1 = 0 := by
  unfold SimpleDatabusLoadingPlugin_execute
  rw [if_pos hst]
  exact ⟨rfl, rfl⟩

/-- Witness for `loader_fails_above_400` at status 404. -/
theorem loader_fails_above_400_witness :
    SimpleDatabusLoadingPlugin_execute loaderDemo loaderEnv404
      = ([.get loaderDemo.databus_file_id],
         { operation_desc := some "Download Failed ❌",
           error := some "Not Found" }) :=
  (loader_fails_above_400 loaderDemo loaderEnv404 (by decide)).1

/-- C2 (evaluation at the failing inputs): the claim says construction fails
at configuration-validation time exactly for URIs that do not match
`https://{base}/{publisher}/{group}/{artifact}/`.  The regex at
publisher.py:54 matches precisely that documented four-segment shape, but
the check at publisher.py:136-137 is inverted (`if validate_…: raise`), so
the code raises exactly on the URIs its validator accepts: (1) a URI of the
documented shape is accepted by the validator and construction therefore
raises `ValueError("The specified dataset artifact uri is not valid")`,
where the claim requires success; (2) the malformed URI
`"https://databus.example.org/user1"` fails the validator, so no validation
error is raised and construction succeeds, where the claim requires
failure. -/
theorem C2_publisher_validation_inverted :
    (validate_dataset_artifact_uri
        "https://databus.example.org/user1/general/mydataset/" = true
      ∧ DatabusDeployPlugin_init
          "https://databus.example.org/user1/general/mydataset/"
          "1.0" "lic" "key" "src" "k=v" 1048576
        = .error
            (.valueError "The specified dataset artifact uri is not valid")) ∧
    (validate_dataset_artifact_uri "https://databus.example.org/user1" = false
      ∧ initSucceeds (DatabusDeployPlugin_init
          "https://databus.example.org/user1"
          "1.0" "lic" "key" "src" "k=v" 1048576) = true) := by
  exact ⟨⟨by decide, by decide⟩, by decide, by decide⟩

/-- C9 counterexample: the requested key being absent from the result
bindings is *not* the only silently-swallowed condition.  In
`respValueMissing` the requested key `"acc"` is present in the (only)
binding, and in `respNoResults` there are no bindings because the
`"results"` envelope itself is missing; in both cases the extraction raises
`KeyError` and `fetch_query_result_by_key` silently returns the empty list
instead of propagating an error. -/
theorem C9_counterexample_other_keyerrors_swallowed :
    fetch_query_result_by_key respValueMissing "acc" = .ok []
    ∧ (Json.obj [("acc", Json.obj [])]).getItem "acc" = .ok (Json.obj [])
    ∧ extract_results respValueMissing "acc" = .error (.keyError "value")
    ∧ fetch_query_result_by_key respNoResults "acc" = .ok []
    ∧ extract_results respNoResults "acc" = .error (.keyError "results") :=
  ⟨rfl, rfl, rfl, rfl, rfl⟩

/-- C9 (amended): `fetch_query_result_by_key` returns the empty list, not an
error, whenever the extraction raises any `KeyError` — be it the requested
binding key absent from a binding, or the `"results"`, `"bindings"` or
`"value"` envelope keys missing; every non-`KeyError` failure (a
`TypeError` from subscripting or iterating a wrong shape) propagates to the
caller, and a successful extraction is returned unchanged.  The absence of
the requested key is thus one of several silently-swallowed `KeyError`
conditions, not the only one. -/
theorem C9_keyerror_swallowed_typeerror_propagates (query_results : Json)
    (key : String) :
    (∀ k, extract_results query_results key = .error (.keyError k) →
      fetch_query_result_by_key query_results key = .ok []) ∧
    (extract_results query_results key = .error .typeError →
      fetch_query_result_by_key query_results key = .error .typeError) ∧
    (∀ results, extract_results query_results key = .ok results →
      fetch_query_result_by_key query_results key = .ok results) := by
  refine ⟨?_, ?_, ?_⟩
  · intro k hk
    unfold fetch_query_result_by_key
    rw [hk]
  · intro ht
    unfold fetch_query_result_by_key
    rw [ht]
  · intro results hr
    unfold fetch_query_result_by_key
    rw [hr]

/-- C9 witness: the amended theorem applied to a response in which the
requested key is absent from the binding: the result is the empty list. -/
theorem C9_keyerror_swallowed_witness :
    fetch_query_result_by_key
      (Json.obj [("results", Json.obj [("bindings",
        Json.arr [Json.obj [("other", Json.str "x")]])])]) "acc" = .ok [] :=
  (C9_keyerror_swallowed_typeerror_propagates
    (Json.obj [("results", Json.obj [("bindings",
      Json.arr [Json.obj [("other", Json.str "x")]])])]) "acc").1 "acc" rfl
